import Mathlib

/-!
Verification of the DAA-por-region pipeline (`build_static.py` and
`mapa_agua_dash.py`) against its natural-language specification.

The two Python scripts are tabular pandas/geopandas pipelines.  We embed the
tables as lists of structure rows and each pandas operation as a list
transformation:

* `df[df["TipodeTransacción"].isin(valid_types)]` becomes `filterValid`;
* `df.groupby(["region_id","year"]).size().reset_index(name="n_ventas")`
  becomes `groupCounts` (pandas sorts the group keys; we keep them in first
  occurrence order, a permutation that none of the verified properties
  depends on);
* `counts.merge(pop, on=["region_id","year"], how="left")` becomes
  `leftMergePop` (a left merge: each left row paired with every matching
  right row, or kept once with a missing value when no right row matches);
* float columns that can hold NaN are `Option ℚ`, with `none` standing for a
  non-finite float (NaN from a missing value, ±inf or NaN from dividing by a
  zero denominator); pandas `Series.sum()` skips NaN, embedded as `getD 0`;
* the geoseries operations `buffer(0)`, `unary_union`, `centroid` and
  `rotate` are calls into shapely, out of scope per the spec; they are kept
  abstract as fields of a `GeoOps` record so that the *composition* the
  scripts build out of them can be compared across the two delivery modes;
* number formatting (`:.1f`, `:.4f`) is abstracted by `fmtFloat`; no verified
  property depends on digit rendering, only on which segments a summary text
  contains.
-/

namespace DAA

/-- One record of `base final.dta` after the renames of both scripts
(`numero_region` → `region_id`, `RegistroAñoCBRActual` → `year`),
with `year` already cast to `int`. -/
structure TransRow where
  tipo : String
  region_id : String
  year : Int
deriving DecidableEq, Repr

/-- One row of the long-format population table `pop` / `pop_long`:
after `melt`, `lstrip("a")`, `astype(int)` and the roman-numeral mapping. -/
structure PopRow where
  region_id : String
  year : Int
  population : ℚ
deriving DecidableEq, Repr

/-- One row of `counts` right after the `groupby(...).size()` aggregation. -/
structure CountRow where
  region_id : String
  year : Int
  n_ventas : Nat
deriving DecidableEq, Repr

/-- One row of `counts` after the left merge with the population table.
`population` is `none` when the merge found no population row (NaN). -/
structure MergedRow where
  region_id : String
  year : Int
  n_ventas : Nat
  population : Option ℚ
deriving DecidableEq, Repr

/-- One row of the final `counts` table of `build_static.py`
(line 69 adds the `ventas_per_100k` column). -/
structure StaticRow where
  region_id : String
  year : Int
  n_ventas : Nat
  population : Option ℚ
  ventas_per_100k : Option ℚ
deriving DecidableEq, Repr

/-- One row of the final `counts` table of `mapa_agua_dash.py`
(line 59 adds the `ventas_per_capita` column), and also the row shape of
`df_map` after the reindex. -/
structure DashRow where
  region_id : String
  year : Int
  n_ventas : Nat
  population : Option ℚ
  ventas_per_capita : Option ℚ
deriving DecidableEq, Repr

/-- One row of the Australia table `aus` after the column renames and casts
(both scripts). -/
structure AusRow where
  year : Int
  n_ventas : Int
  population : ℚ
  ventas_per_capita : ℚ
deriving DecidableEq, Repr

/-- `valid_types` of `build_static.py`, lines 45-48. -/
def valid_types_static : List String :=
  ["ARRENDAMIENTO", "CESION", "COMPRAVENTA", "DACION EN PAGO",
   "DONACION", "LIQUIDACIÓN", "PERMUTA"]

/-- `valid_types` of `mapa_agua_dash.py`, lines 19-22. -/
def valid_types_dash : List String :=
  ["ARRENDAMIENTO", "CESION", "COMPRAVENTA", "DACION EN PAGO",
   "DONACION", "LIQUIDACIÓN", "PERMUTA"]

/-- `df = df[df["TipodeTransacción"].isin(valid_types)]`
(build_static line 50, dash line 24). -/
def filterValid (valid : List String) (df : List TransRow) : List TransRow :=
  df.filter fun r => decide (r.tipo ∈ valid)

/-- The key projection used throughout: the pair of join keys
`(region_id, year)`. -/
def transKey (t : TransRow) : String × Int := (t.region_id, t.year)

/-- `counts = df.groupby(["region_id","year"]).size().reset_index(name="n_ventas")`
(build_static line 56, dash lines 34-39): one row per distinct
`(region_id, year)` key occurring in `df`, whose `n_ventas` is the number of
rows of `df` with that key.  Pandas emits the keys sorted; we keep first
occurrence order, which no verified property depends on. -/
def groupCounts (df : List TransRow) : List CountRow :=
  (df.map transKey).dedup.map fun k =>
    ⟨k.1, k.2, df.countP fun t => decide (t.region_id = k.1 ∧ t.year = k.2)⟩

/-- `counts = counts.merge(pop[["region_id","year","population"]],
on=["region_id","year"], how="left")` (build_static lines 65-68, dash lines
55-58): each counts row is paired with every matching population row, and a
counts row with no match is kept once with `population = none` (NaN). -/
def leftMergePop (cs : List CountRow) (pop : List PopRow) : List MergedRow :=
  cs.flatMap fun c =>
    if (pop.filter fun p => decide (p.region_id = c.region_id ∧ p.year = c.year)).isEmpty
    then [⟨c.region_id, c.year, c.n_ventas, none⟩]
    else (pop.filter fun p => decide (p.region_id = c.region_id ∧ p.year = c.year)).map
      fun p => ⟨c.region_id, c.year, c.n_ventas, some p.population⟩

/-- Pandas float column division `n / p`.  `none` models a non-finite float:
NaN when the denominator is missing (NaN), and ±inf or NaN (never a finite
number, in particular never `0`) when the denominator is `0`. -/
def pdDiv (n : ℚ) (p : Option ℚ) : Option ℚ :=
  match p with
  | none => none
  | some q => if q = 0 then none else some (n / q)

/-- `counts["ventas_per_100k"] = counts["n_ventas"] / counts["population"] * 100000`
(build_static line 69). -/
def addPer100k (ms : List MergedRow) : List StaticRow :=
  ms.map fun m =>
    ⟨m.region_id, m.year, m.n_ventas, m.population,
     (pdDiv (m.n_ventas : ℚ) m.population).map (· * 100000)⟩

/-- `counts['ventas_per_capita'] = counts['n_ventas'] / counts['population']`
(dash line 59). -/
def addPerCapita (ms : List MergedRow) : List DashRow :=
  ms.map fun m =>
    ⟨m.region_id, m.year, m.n_ventas, m.population,
     pdDiv (m.n_ventas : ℚ) m.population⟩

/-- The Chile tabular pipeline of `build_static.py`: filter by transaction
type, aggregate by region and year, left-join population, add the per-100k
column.  This is the `counts` table handed to `px.choropleth` (line 108). -/
def staticCounts (df : List TransRow) (pop : List PopRow) : List StaticRow :=
  addPer100k (leftMergePop (groupCounts (filterValid valid_types_static df)) pop)

/-- The Chile tabular pipeline of `mapa_agua_dash.py`, lines 24-59: same
stages, with the unnormalised per-capita column. -/
def dashCounts (df : List TransRow) (pop : List PopRow) : List DashRow :=
  addPerCapita (leftMergePop (groupCounts (filterValid valid_types_dash df)) pop)

/-- `years = sorted(counts["year"].unique())` (dash line 91). -/
def yearsOf (cs : List DashRow) : List Int :=
  ((cs.map fun c => c.year).dedup).mergeSort fun a b => a ≤ b

/-- `df_map` (dash lines 93-102): reindex `counts` on the full product
`region_ids × years` with `fill_value=0` — a missing `(region_id, year)`
pair gets a row whose every column is `0`, including `population` and
`ventas_per_capita` (pandas writes the literal fill value `0` into every
column).  The subsequent left merge with `regions[["region_id","geometry"]]`
only attaches geometry keyed on `region_id` and is not modelled here.
Pandas `reindex` requires the index to be unique; when `cs` has duplicate
keys we take the first matching row. -/
def dfMap (cs : List DashRow) (region_ids : List String) : List DashRow :=
  let years := yearsOf cs
  region_ids.flatMap fun r => years.map fun y =>
    match cs.find? (fun c => decide (c.region_id = r ∧ c.year = y)) with
    | some c => c
    | none => ⟨r, y, 0, some 0, some 0⟩

/-- `cy["population"].sum()` (build_static line 88): pandas sums with
`skipna=True`, so a NaN population contributes `0`. -/
def popSumStatic (rows : List StaticRow) : ℚ :=
  (rows.map fun r => r.population.getD 0).sum

/-- `abs_chile = int(cy["n_ventas"].sum())` (build_static line 87). -/
def absChileStatic (rows : List StaticRow) : Nat :=
  (rows.map fun r => r.n_ventas).sum

/-- `cy = counts[counts["year"]==yr]` (build_static line 86). -/
def yearSliceStatic (counts : List StaticRow) (yr : Int) : List StaticRow :=
  counts.filter fun r => decide (r.year = yr)

/-- `per100k = abs_chile / pop_chile * 100000 if pop_chile else 0`
(build_static line 89): the division guarded by the truthiness of
`pop_chile`. -/
def per100kChile (counts : List StaticRow) (yr : Int) : ℚ :=
  let cy := yearSliceStatic counts yr
  let abs_chile : ℚ := (absChileStatic cy : ℚ)
  let pop_chile := popSumStatic cy
  if pop_chile ≠ 0 then abs_chile / pop_chile * 100000 else 0

/-- Decimal rendering of a float for the f-strings (`:.1f`, `:.4f`).  The
exact digit rendering is immaterial to every verified property (they only
discriminate segments of the text), so we render the exact rational. -/
def fmtFloat (q : ℚ) : String := toString q

/-- The Australia segment of `year_text` (build_static lines 91-97):
`ay = aus[aus["year"]==yr]; if not ay.empty:` format from `ay.iloc[0]`,
`else` the empty string.  `iloc[0]` is the first matching row. -/
def txtAusStatic (aus : List AusRow) (yr : Int) : String :=
  match aus.find? (fun a => decide (a.year = yr)) with
  | some a0 =>
      " — Australia " ++ toString yr ++ ": " ++ toString a0.n_ventas ++ " (" ++
        fmtFloat ((a0.n_ventas : ℚ) / a0.population * 100000) ++ " por 100 000 pers.)"
  | none => ""

/-- The Chile part of `year_text[str(yr)]` (build_static lines 99-102). -/
def chileTextStatic (counts : List StaticRow) (yr : Int) : String :=
  "Total Chile " ++ toString yr ++ ": " ++ toString (absChileStatic (yearSliceStatic counts yr)) ++
    " compraventas (" ++ fmtFloat (per100kChile counts yr) ++ " por 100 000 pers.)"

/-- `year_text[str(yr)]` (build_static lines 99-102): the Chile totals
followed by the (possibly empty) Australia segment. -/
def yearTextStatic (counts : List StaticRow) (aus : List AusRow) (yr : Int) : String :=
  chileTextStatic counts yr ++ txtAusStatic aus yr

/-- The shapely geoseries operations used by both scripts.  They are thin
wrappers over an external geometry library (out of scope per the spec), so
they are kept abstract: what is verified is the composition the scripts
build out of them, which is identical in both delivery modes. -/
structure GeoOps (G : Type) where
  buffer0 : G → G
  unary_union : List G → G
  centroid : G → ℚ × ℚ
  rotate90 : G → ℚ × ℚ → G

/-- Geometry preparation of `build_static.py`, lines 18-24:
`gdf["geometry"] = gdf.geometry.buffer(0)`, then
`union = unary_union(gdf.geometry)`, `centrod = union.centroid`, and
`gdf["geometry"] = gdf.geometry.rotate(90, origin=(centrod.x, centrod.y))`. -/
def staticPrepGeoms {G : Type} (ops : GeoOps G) (geoms : List G) : List G :=
  let cleaned := geoms.map ops.buffer0
  let union := ops.unary_union cleaned
  let centrod := ops.centroid union
  cleaned.map fun g => ops.rotate90 g centrod

/-- The rotation origin of `build_static.py` (lines 22-23): the centroid of
the union of the cleaned geometries. -/
def staticCentroid {G : Type} (ops : GeoOps G) (geoms : List G) : ℚ × ℚ :=
  ops.centroid (ops.unary_union (geoms.map ops.buffer0))

/-- Geometry cleaning of `mapa_agua_dash.py`, line 82:
`regions['geometry'] = regions['geometry'].buffer(0)`.  No rotation happens
at load time in the dashboard. -/
def dashCleanGeoms {G : Type} (ops : GeoOps G) (geoms : List G) : List G :=
  geoms.map ops.buffer0

/-- `chile_centroid = unary_union(regions.geometry).centroid`
(dash lines 87-88), computed on the cleaned geometries. -/
def chileCentroid {G : Type} (ops : GeoOps G) (geoms : List G) : ℚ × ℚ :=
  ops.centroid (ops.unary_union (dashCleanGeoms ops geoms))

/-- The per-callback rotation of the dashboard (dash lines 139-141):
`df_year['geometry'] = df_year.geometry.rotate(90,
origin=(chile_centroid.x, chile_centroid.y))`, applied to one geometry. -/
def dashRotateGeom {G : Type} (ops : GeoOps G) (geoms : List G) (g : G) : G :=
  ops.rotate90 g (chileCentroid ops geoms)

/-- A row of `gdf_map` (dash line 104): the `df_map` columns plus the
region geometry. -/
structure GeoDashRow (G : Type) where
  region_id : String
  year : Int
  n_ventas : Nat
  population : Option ℚ
  ventas_per_capita : Option ℚ
  geometry : G

/-- The module-level tables the dashboard callback reads:
`gdf_map` and `aus`. -/
structure DashState (G : Type) where
  gdf_map : List (GeoDashRow G)
  aus : List AusRow

/-- `total_population = df_year['population'].sum()` (dash line 136),
`skipna=True`. -/
def popSumDash {G : Type} (rows : List (GeoDashRow G)) : ℚ :=
  (rows.map fun r => r.population.getD 0).sum

/-- `abs_total = int(df_year['n_ventas'].sum())` (dash line 135). -/
def absTotalDash {G : Type} (rows : List (GeoDashRow G)) : Nat :=
  (rows.map fun r => r.n_ventas).sum

/-- `percap_total = abs_total / total_population if total_population else 0`
(dash line 137). -/
def percapTotalDash {G : Type} (rows : List (GeoDashRow G)) : ℚ :=
  let abs_total : ℚ := (absTotalDash rows : ℚ)
  let total_population := popSumDash rows
  if total_population ≠ 0 then abs_total / total_population else 0

/-- `australia_text` (dash lines 176-185): `aus_rows = aus[aus['year'] ==
selected_year]`, formatted from `aus_rows.iloc[0]` when non-empty, else the
empty string. -/
def australiaTextDash (aus : List AusRow) (selected_year : Int) : String :=
  match aus.find? (fun a => decide (a.year = selected_year)) with
  | some a0 =>
      " — Australia " ++ toString selected_year ++ ": " ++ toString a0.n_ventas ++
        " compraventas (" ++ fmtFloat a0.ventas_per_capita ++ " per cápita)"
  | none => ""

/-- `total_text` (dash lines 188-192). -/
def totalTextDash {G : Type} (df_year : List (GeoDashRow G)) (aus : List AusRow)
    (selected_year : Int) : String :=
  "Total Chile " ++ toString selected_year ++ ": " ++ toString (absTotalDash df_year) ++
    " compraventas (" ++ fmtFloat (percapTotalDash df_year) ++ " per cápita)" ++
    australiaTextDash aus selected_year

/-- `DataFrame.copy()`: a fresh table with the same rows, so that later
column assignments do not touch the table it was copied from. -/
def copyRows {G : Type} (rows : List (GeoDashRow G)) : List (GeoDashRow G) :=
  rows.map fun r =>
    ⟨r.region_id, r.year, r.n_ventas, r.population, r.ventas_per_capita, r.geometry⟩

set_option linter.unusedVariables false in
/-- The dashboard callback `update_map` (dash lines 132-193), with the
figure construction (a call into plotly, out of scope) omitted.  The first
statement `df_year = gdf_map[gdf_map["year"] == selected_year].copy()`
slices the shared table and copies it; every subsequent assignment
(`df_year['geometry'] = ...rotate...`, `df_year["location_id"] = ...`)
writes to that copy, so the shared tables come out of the call exactly as
they went in.  The returned pair is (shared state after the call, the
`total_text` output). -/
def update_map {G : Type} (ops : GeoOps G) (origin : ℚ × ℚ) (state : DashState G)
    (selected_year : Int) : DashState G × String :=
  let df_year := copyRows (state.gdf_map.filter fun r => decide (r.year = selected_year))
  let abs_total := absTotalDash df_year
  let total_population := popSumDash df_year
  let percap_total := if total_population ≠ 0 then (abs_total : ℚ) / total_population else 0
  let df_year := df_year.map fun r =>
    { r with geometry := ops.rotate90 r.geometry origin }
  let australia_text := australiaTextDash state.aus selected_year
  let total_text := "Total Chile " ++ toString selected_year ++ ": " ++ toString abs_total ++
    " compraventas (" ++ fmtFloat percap_total ++ " per cápita)" ++ australia_text
  (state, total_text)

/-- The Chile prefix of `total_text` (dash lines 188-191), before the
Australia segment is appended. -/
def chileTotalTextDash {G : Type} (df_year : List (GeoDashRow G)) (selected_year : Int) : String :=
  "Total Chile " ++ toString selected_year ++ ": " ++ toString (absTotalDash df_year) ++
    " compraventas (" ++ fmtFloat (percapTotalDash df_year) ++ " per cápita)"

/-! Concrete tables used to witness the claim theorems at explicit inputs.
`dfZero`/`popZero` exhibit a zero recorded population; `dfOne`/`popOne` a
regular one; `dfGrid`/`popGrid`/`regionIdsGrid` a geometry region with no
transactions. -/

def dfZero : List TransRow := [⟨"COMPRAVENTA", "I", 2000⟩]

def popZero : List PopRow := [⟨"I", 2000, 0⟩]

def dfOne : List TransRow := [⟨"COMPRAVENTA", "I", 2000⟩]

def popOne : List PopRow := [⟨"I", 2000, 100⟩]

def dfGrid : List TransRow := [⟨"COMPRAVENTA", "I", 2000⟩]

def popGrid : List PopRow := [⟨"II", 2000, 100⟩]

def regionIdsGrid : List String := ["I", "II"]

def ausOne : List AusRow := [⟨2000, 5, 100, 1/20⟩]

def opsUnit : GeoOps Unit := ⟨fun g => g, fun _ => (), fun _ => (0, 0), fun g _ => g⟩

def stateUnit : DashState Unit :=
  ⟨[⟨"I", 2000, 2, some 100, some (1/50), ()⟩], ausOne⟩

/-! Helper lemmas shared by the claim theorems. -/

/-- `find?` returns the head of the filtered list. -/
theorem find_eq_head_filter {α} (p : α → Bool) (l : List α) :
    l.find? p = (l.filter p).head? := by
  induction l with
  | nil => rfl
  | cons a l ih =>
    rw [List.find?_cons, List.filter_cons]
    cases h : p a
    · exact ih
    · rfl

/-- A duplicate-free list whose elements are all equal has at most one
element. -/
theorem length_le_one_of_nodup_const {α} {l : List α} {a : α} (hn : l.Nodup)
    (h : ∀ x ∈ l, x = a) : l.length ≤ 1 := by
  match l with
  | [] => simp
  | [x] => simp
  | x :: y :: t =>
    exfalso
    have hx := h x (by simp)
    have hy := h y (by simp)
    rcases List.nodup_cons.mp hn with ⟨hnx, _⟩
    exact hnx (by rw [hx, ← hy]; simp)

/-- A string starting with a non-empty literal is non-empty. -/
theorem append_ne_empty_left {s : String} (t : String) (h : s ≠ "") : s ++ t ≠ "" := by
  intro he
  apply h
  have h2 : s.length + t.length = 0 := by
    rw [← String.length_append, he]
    rfl
  have h3 : s.length = 0 := by omega
  cases s with
  | mk data =>
    cases data with
    | nil => rfl
    | cons c cs => simp [String.length] at h3

/-- The key column of `groupCounts df` is exactly the deduplicated key
column of `df`. -/
theorem groupCounts_keys (df : List TransRow) :
    (groupCounts df).map (fun c => (c.region_id, c.year)) = (df.map transKey).dedup := by
  rw [groupCounts, List.map_map]
  exact List.map_id _

/-- Every row of `groupCounts df` has a key occurring in `df`. -/
theorem groupCounts_mem_key {df : List TransRow} {c : CountRow} (hc : c ∈ groupCounts df) :
    ∃ t ∈ df, t.region_id = c.region_id ∧ t.year = c.year := by
  rcases List.mem_map.mp hc with ⟨k, hk, rfl⟩
  rcases List.mem_map.mp (List.mem_dedup.mp hk) with ⟨t, ht, hkey⟩
  subst hkey
  exact ⟨t, ht, rfl, rfl⟩

/-- Every key occurring in `df` is the key of a row of `groupCounts df`. -/
theorem groupCounts_mem_of_key {df : List TransRow} {t : TransRow} (ht : t ∈ df) :
    ∃ c ∈ groupCounts df, c.region_id = t.region_id ∧ c.year = t.year := by
  refine ⟨⟨t.region_id, t.year,
    df.countP fun u => decide (u.region_id = t.region_id ∧ u.year = t.year)⟩, ?_, rfl, rfl⟩
  exact List.mem_map.mpr ⟨(t.region_id, t.year),
    List.mem_dedup.mpr (List.mem_map.mpr ⟨t, ht, rfl⟩), rfl⟩

/-- The count of each `groupCounts` row is the number of data rows with its
key. -/
theorem groupCounts_n_ventas {df : List TransRow} {c : CountRow} (hc : c ∈ groupCounts df) :
    c.n_ventas = df.countP fun t => decide (t.region_id = c.region_id ∧ t.year = c.year) := by
  rcases List.mem_map.mp hc with ⟨k, _, rfl⟩
  rfl

/-- Every row of a left merge carries the key and count of a counts row. -/
theorem leftMergePop_mem {cs : List CountRow} {pop : List PopRow} {m : MergedRow}
    (hm : m ∈ leftMergePop cs pop) :
    ∃ c ∈ cs, c.region_id = m.region_id ∧ c.year = m.year ∧ c.n_ventas = m.n_ventas := by
  rcases List.mem_flatMap.mp hm with ⟨c, hc, hmem⟩
  by_cases he :
      (pop.filter fun p => decide (p.region_id = c.region_id ∧ p.year = c.year)).isEmpty = true
  · rw [if_pos he] at hmem
    rw [List.mem_singleton] at hmem
    exact ⟨c, hc, by simp [hmem]⟩
  · rw [if_neg he] at hmem
    rcases List.mem_map.mp hmem with ⟨p, _, rfl⟩
    exact ⟨c, hc, rfl, rfl, rfl⟩

/-- Under a duplicate-free population key column, each counts row matches at
most one population row. -/
theorem leftMergePop_matches_le_one (pop : List PopRow)
    (hpop : (pop.map fun p => (p.region_id, p.year)).Nodup) (r : String) (y : Int) :
    (pop.filter fun p => decide (p.region_id = r ∧ p.year = y)).length ≤ 1 := by
  have hsub : (pop.filter fun p => decide (p.region_id = r ∧ p.year = y)).Sublist pop :=
    List.filter_sublist pop
  have hmapnodup :
      ((pop.filter fun p => decide (p.region_id = r ∧ p.year = y)).map
        fun p => (p.region_id, p.year)).Nodup :=
    (hsub.map fun p => (p.region_id, p.year)).nodup hpop
  have hconst : ∀ k ∈ (pop.filter fun p => decide (p.region_id = r ∧ p.year = y)).map
      (fun p => (p.region_id, p.year)), k = (r, y) := by
    intro k hk
    rcases List.mem_map.mp hk with ⟨p, hp, rfl⟩
    have := (List.mem_filter.mp hp).2
    simp at this
    simp [this.1, this.2]
  have := length_le_one_of_nodup_const hmapnodup hconst
  simpa using this

/-- When the population key column is duplicate-free, the left merge reduces
to a per-row `find?` lookup: each counts row appears exactly once, in order,
with its population attached when a match exists and `none` otherwise. -/
theorem leftMergePop_eq_find (cs : List CountRow) (pop : List PopRow)
    (hpop : (pop.map fun p => (p.region_id, p.year)).Nodup) :
    leftMergePop cs pop = cs.map fun c =>
      ⟨c.region_id, c.year, c.n_ventas,
        (pop.find? fun p => decide (p.region_id = c.region_id ∧ p.year = c.year)).map
          fun p => p.population⟩ := by
  induction cs with
  | nil => rfl
  | cons c cs ih =>
    rw [leftMergePop] at ih ⊢
    rw [List.flatMap_cons, List.map_cons, ih]
    rw [find_eq_head_filter]
    cases hms : pop.filter fun p => decide (p.region_id = c.region_id ∧ p.year = c.year) with
    | nil => rfl
    | cons p rest =>
      cases rest with
      | nil => rfl
      | cons p2 r2 =>
        have hlen : (p :: p2 :: r2).length ≤ 1 := by
          rw [← hms]
          exact leftMergePop_matches_le_one pop hpop c.region_id c.year
        simp at hlen

/-- Adding the per-100k column only computes a new column: key, count and
population are those of a merged row. -/
theorem addPer100k_mem {ms : List MergedRow} {row : StaticRow} (h : row ∈ addPer100k ms) :
    ∃ m ∈ ms, m.region_id = row.region_id ∧ m.year = row.year ∧
      m.n_ventas = row.n_ventas ∧ m.population = row.population ∧
      row.ventas_per_100k = (pdDiv (m.n_ventas : ℚ) m.population).map (· * 100000) := by
  rcases List.mem_map.mp h with ⟨m, hm, rfl⟩
  exact ⟨m, hm, rfl, rfl, rfl, rfl, rfl⟩

/-- Adding the per-capita column only computes a new column: key, count and
population are those of a merged row. -/
theorem addPerCapita_mem {ms : List MergedRow} {row : DashRow} (h : row ∈ addPerCapita ms) :
    ∃ m ∈ ms, m.region_id = row.region_id ∧ m.year = row.year ∧
      m.n_ventas = row.n_ventas ∧ m.population = row.population ∧
      row.ventas_per_capita = pdDiv (m.n_ventas : ℚ) m.population := by
  rcases List.mem_map.mp h with ⟨m, hm, rfl⟩
  exact ⟨m, hm, rfl, rfl, rfl, rfl, rfl⟩

/-- Every key of the dash counts table occurs in the filtered transaction
data. -/
theorem dashCounts_key {df : List TransRow} {pop : List PopRow} {d : DashRow}
    (hd : d ∈ dashCounts df pop) :
    ∃ t ∈ filterValid valid_types_dash df, t.region_id = d.region_id ∧ t.year = d.year := by
  rcases addPerCapita_mem hd with ⟨m, hm, h1, h2, -⟩
  rcases leftMergePop_mem hm with ⟨c, hc, g1, g2, -⟩
  rcases groupCounts_mem_key hc with ⟨t, ht, f1, f2⟩
  exact ⟨t, ht, by rw [f1, g1, h1], by rw [f2, g2, h2]⟩

/-- When the filtered data has no row with key `(r, y)`, the dash counts
table has no row with that key either. -/
theorem dashCounts_find_none {df : List TransRow} {pop : List PopRow} {r : String} {y : Int}
    (hno : ∀ t ∈ filterValid valid_types_dash df, ¬(t.region_id = r ∧ t.year = y)) :
    (dashCounts df pop).find? (fun c => decide (c.region_id = r ∧ c.year = y)) = none := by
  rw [List.find?_eq_none]
  intro d hd
  simp only [decide_eq_true_eq]
  intro ⟨h1, h2⟩
  rcases dashCounts_key hd with ⟨t, ht, e1, e2⟩
  exact hno t ht ⟨e1.trans h1, e2.trans h2⟩

/-- Characterisation of the rows of `df_map`: each row arises at a grid
point `(r, y)` of `region_ids × years`, and is either the (first) counts
row with that key or the all-zero fill row. -/
theorem dfMap_mem {cs : List DashRow} {region_ids : List String} {row : DashRow}
    (h : row ∈ dfMap cs region_ids) :
    ∃ r ∈ region_ids, ∃ y ∈ yearsOf cs,
      (cs.find? (fun c => decide (c.region_id = r ∧ c.year = y)) = some row ∧
        row.region_id = r ∧ row.year = y) ∨
      (cs.find? (fun c => decide (c.region_id = r ∧ c.year = y)) = none ∧
        row = ⟨r, y, 0, some 0, some 0⟩) := by
  rcases List.mem_flatMap.mp h with ⟨r, hr, hmem⟩
  rcases List.mem_map.mp hmem with ⟨y, hy, heq⟩
  refine ⟨r, hr, y, hy, ?_⟩
  cases hfind : cs.find? (fun c => decide (c.region_id = r ∧ c.year = y)) with
  | some c =>
    left
    rw [hfind] at heq
    have hc : c = row := heq
    subst hc
    have hp := List.find?_some hfind
    simp only [decide_eq_true_eq] at hp
    exact ⟨rfl, hp.1, hp.2⟩
  | none =>
    right
    rw [hfind] at heq
    have hc : (⟨r, y, 0, some 0, some 0⟩ : DashRow) = row := heq
    exact ⟨rfl, hc.symm⟩

/-- Every grid point of `region_ids × years` produces a row of `df_map`. -/
theorem dfMap_mem_of_grid {cs : List DashRow} {region_ids : List String} {r : String} {y : Int}
    (hr : r ∈ region_ids) (hy : y ∈ yearsOf cs) :
    (match cs.find? (fun c => decide (c.region_id = r ∧ c.year = y)) with
      | some c => c
      | none => (⟨r, y, 0, some 0, some 0⟩ : DashRow)) ∈ dfMap cs region_ids := by
  exact List.mem_flatMap.mpr ⟨r, hr, List.mem_map.mpr ⟨y, hy, rfl⟩⟩

/-- The Australia lookup succeeds exactly when the Australia table has a row
for the year. -/
theorem aus_find_isSome (aus : List AusRow) (yr : Int) :
    (aus.find? fun a => decide (a.year = yr)).isSome ↔ ∃ a ∈ aus, a.year = yr := by
  rw [List.find?_isSome]
  simp

/-- A successful Australia lookup makes the static Australia segment
non-empty. -/
theorem txtAusStatic_ne_empty {aus : List AusRow} {yr : Int} {a0 : AusRow}
    (hfind : aus.find? (fun a => decide (a.year = yr)) = some a0) :
    txtAusStatic aus yr ≠ "" := by
  rw [txtAusStatic, hfind]
  apply append_ne_empty_left
  apply append_ne_empty_left
  apply append_ne_empty_left
  apply append_ne_empty_left
  apply append_ne_empty_left
  apply append_ne_empty_left
  decide

/-- A successful Australia lookup makes the dashboard Australia segment
non-empty. -/
theorem australiaTextDash_ne_empty {aus : List AusRow} {yr : Int} {a0 : AusRow}
    (hfind : aus.find? (fun a => decide (a.year = yr)) = some a0) :
    australiaTextDash aus yr ≠ "" := by
  rw [australiaTextDash, hfind]
  apply append_ne_empty_left
  apply append_ne_empty_left
  apply append_ne_empty_left
  apply append_ne_empty_left
  apply append_ne_empty_left
  apply append_ne_empty_left
  decide

/-! The claim theorems. -/

/-- Claim C4: the transaction filter keeps a record if and only if its
`TipodeTransacción` value is one of the seven valid types; both delivery
modes use exactly the same filter set, and in both pipelines the filtering
happens before the aggregation (the aggregation's input is the filtered
table). -/
theorem claim_C4 (df : List TransRow) (pop : List PopRow) :
    valid_types_static = valid_types_dash
  ∧ (∀ t : TransRow,
      t ∈ filterValid valid_types_static df ↔ t ∈ df ∧ t.tipo ∈ valid_types_static)
  ∧ (∀ t : TransRow,
      t ∈ filterValid valid_types_dash df ↔ t ∈ df ∧ t.tipo ∈ valid_types_dash)
  ∧ staticCounts df pop =
      addPer100k (leftMergePop (groupCounts (filterValid valid_types_static df)) pop)
  ∧ dashCounts df pop =
      addPerCapita (leftMergePop (groupCounts (filterValid valid_types_dash df)) pop) := by
  refine ⟨rfl, ?_, ?_, rfl, rfl⟩ <;> intro t <;> simp [filterValid, List.mem_filter]

/-- Claim C4 witness: the filter at work on a concrete table — a
`COMPRAVENTA` record is kept. -/
theorem claim_C4_witness :
    (⟨"COMPRAVENTA", "I", 2000⟩ : TransRow) ∈ filterValid valid_types_static dfOne :=
  ((claim_C4 dfOne popOne).2.1 ⟨"COMPRAVENTA", "I", 2000⟩).mpr
    ⟨by decide, by decide⟩

/-- Claim C5: the aggregation produces exactly one row per `(region_id,
year)` pair occurring in the filtered data (its key column is
duplicate-free, and a key has a row iff it occurs), and that row's
`n_ventas` is the number of filtered rows with that key; no row exists for
non-occurring pairs. -/
theorem claim_C5 (df : List TransRow) :
    (((groupCounts (filterValid valid_types_static df)).map
        fun c => (c.region_id, c.year)).Nodup)
  ∧ (∀ r y, (∃ c ∈ groupCounts (filterValid valid_types_static df),
        c.region_id = r ∧ c.year = y)
      ↔ ∃ t ∈ filterValid valid_types_static df, t.region_id = r ∧ t.year = y)
  ∧ (∀ c ∈ groupCounts (filterValid valid_types_static df),
      c.n_ventas = (filterValid valid_types_static df).countP
        fun t => decide (t.region_id = c.region_id ∧ t.year = c.year)) := by
  refine ⟨?_, ?_, ?_⟩
  · rw [groupCounts_keys]
    exact List.nodup_dedup _
  · intro r y
    constructor
    · rintro ⟨c, hc, h1, h2⟩
      rcases groupCounts_mem_key hc with ⟨t, ht, e1, e2⟩
      exact ⟨t, ht, e1.trans h1, e2.trans h2⟩
    · rintro ⟨t, ht, h1, h2⟩
      rcases groupCounts_mem_of_key ht with ⟨c, hc, e1, e2⟩
      exact ⟨c, hc, e1.trans h1, e2.trans h2⟩
  · intro c hc
    exact groupCounts_n_ventas hc

/-- Claim C5 witness: on a concrete table the single aggregated row counts
the two `COMPRAVENTA` records for region I in 2000. -/
theorem claim_C5_witness :
    (⟨"I", 2000, 2⟩ : CountRow).n_ventas =
      (filterValid valid_types_static
        [⟨"COMPRAVENTA", "I", 2000⟩, ⟨"VENTA X", "II", 2000⟩, ⟨"COMPRAVENTA", "I", 2000⟩]).countP
        fun t => decide (t.region_id = (⟨"I", 2000, 2⟩ : CountRow).region_id
          ∧ t.year = (⟨"I", 2000, 2⟩ : CountRow).year) :=
  (claim_C5 [⟨"COMPRAVENTA", "I", 2000⟩, ⟨"VENTA X", "II", 2000⟩,
    ⟨"COMPRAVENTA", "I", 2000⟩]).2.2 ⟨"I", 2000, 2⟩ (by decide)

/-- Claim C8: both delivery modes first clean every region geometry with
`buffer(0)` and then rotate by 90° around the same single shared origin:
the centroid of the union of all cleaned region geometries (not each
region's own centroid).  The static preparation equals the dashboard's
clean-then-rotate composition element by element, and both origins
coincide. -/
theorem claim_C8 {G : Type} (ops : GeoOps G) (geoms : List G) :
    staticPrepGeoms ops geoms = (dashCleanGeoms ops geoms).map (dashRotateGeom ops geoms)
  ∧ staticCentroid ops geoms = chileCentroid ops geoms
  ∧ staticPrepGeoms ops geoms = (geoms.map ops.buffer0).map
      (fun g => ops.rotate90 g (ops.centroid (ops.unary_union (geoms.map ops.buffer0)))) :=
  ⟨rfl, rfl, rfl⟩

/-- Claim C8 witness: the shared composition instantiated at a concrete
geometry algebra. -/
theorem claim_C8_witness :
    staticPrepGeoms opsUnit [(), ()] =
      (dashCleanGeoms opsUnit [(), ()]).map (dashRotateGeom opsUnit [(), ()]) :=
  (claim_C8 opsUnit [(), ()]).1

/-- Claim C10: the dashboard callback `update_map` never mutates the shared
state — it slices and copies, so `gdf_map` (with its unrotated geometries)
and `aus` are unchanged by every call — and two calls with the same
selected year (the second on the state left by the first) return the same
totals text. -/
theorem claim_C10 {G : Type} (ops : GeoOps G) (origin : ℚ × ℚ) (state : DashState G)
    (yr : Int) :
    (update_map ops origin state yr).1 = state
  ∧ (update_map ops origin state yr).1.gdf_map = state.gdf_map
  ∧ (update_map ops origin state yr).1.aus = state.aus
  ∧ (update_map ops origin ((update_map ops origin state yr).1) yr).2
      = (update_map ops origin state yr).2 :=
  ⟨rfl, rfl, rfl, rfl⟩

/-- Claim C10 witness: the frame property at a concrete state. -/
theorem claim_C10_witness :
    (update_map opsUnit (0, 0) stateUnit 2000).1 = stateUnit :=
  (claim_C10 opsUnit (0, 0) stateUnit 2000).1

/-- Claim C1: on every row of the merged region-year table whose population
is a (finite, non-zero) number, the per-capita rate is the transaction
count divided by the population times the normalization factor — 100000 in
the static build, 1 in the dashboard. -/
theorem claim_C1 (df : List TransRow) (pop : List PopRow) :
    (∀ row ∈ staticCounts df pop, ∀ p : ℚ, row.population = some p → p ≠ 0 →
      row.ventas_per_100k = some ((row.n_ventas : ℚ) / p * 100000))
  ∧ (∀ row ∈ dashCounts df pop, ∀ p : ℚ, row.population = some p → p ≠ 0 →
      row.ventas_per_capita = some ((row.n_ventas : ℚ) / p)) := by
  constructor
  · intro row hrow p hp hpz
    rcases addPer100k_mem hrow with ⟨m, -, -, -, hn, hpop, hv⟩
    rw [hv, hpop.trans hp]
    simp [pdDiv, hpz, hn]
  · intro row hrow p hp hpz
    rcases addPerCapita_mem hrow with ⟨m, -, -, -, hn, hpop, hv⟩
    rw [hv, hpop.trans hp]
    simp [pdDiv, hpz, hn]

/-- Claim C1 witness: with 1 transaction and population 100, the static row
carries 1/100·100000 = 1000 and the dashboard row carries 1/100. -/
theorem claim_C1_witness :
    (⟨"I", 2000, 1, some 100, some 1000⟩ : StaticRow).ventas_per_100k =
      some (((⟨"I", 2000, 1, some 100, some 1000⟩ : StaticRow).n_ventas : ℚ) / 100 * 100000)
  ∧ (⟨"I", 2000, 1, some 100, some (1/100)⟩ : DashRow).ventas_per_capita =
      some (((⟨"I", 2000, 1, some 100, some (1/100)⟩ : DashRow).n_ventas : ℚ) / 100) :=
  ⟨(claim_C1 dfOne popOne).1 ⟨"I", 2000, 1, some 100, some 1000⟩
      (by norm_num +decide [staticCounts, addPer100k, leftMergePop, groupCounts, filterValid,
        valid_types_static, transKey, pdDiv, dfOne, popOne, List.filter_cons, List.countP_cons])
      100 rfl (by norm_num),
   (claim_C1 dfOne popOne).2 ⟨"I", 2000, 1, some 100, some (1/100)⟩
      (by norm_num +decide [dashCounts, addPerCapita, leftMergePop, groupCounts, filterValid,
        valid_types_dash, transKey, pdDiv, dfOne, popOne, List.filter_cons, List.countP_cons])
      100 rfl (by norm_num)⟩

/-- Claim C2 counterexample: with one transaction in region I and a
recorded population of 0 for it, neither per-row per-capita column is
guarded — the computed value is a non-finite float (`none` in this
embedding, inf/NaN in pandas), not 0, so the claim that every division by
a zero population yields 0 fails at this input. -/
theorem claim_C2_cex :
    staticCounts dfZero popZero = [⟨"I", 2000, 1, some 0, none⟩]
  ∧ dashCounts dfZero popZero = [⟨"I", 2000, 1, some 0, none⟩]
  ∧ (staticCounts dfZero popZero).countP
      (fun row => decide (row.ventas_per_100k = some 0)) = 0
  ∧ (dashCounts dfZero popZero).countP
      (fun row => decide (row.ventas_per_capita = some 0)) = 0 := by
  refine ⟨?_, ?_, ?_, ?_⟩ <;>
    norm_num +decide [staticCounts, dashCounts, addPer100k, addPerCapita, leftMergePop,
      groupCounts, filterValid, valid_types_static, valid_types_dash, transKey, pdDiv,
      dfZero, popZero, List.filter_cons, List.countP_cons]

/-- Claim C2 (amended): the zero-population guard exists only for the
yearly Chile totals — `per100k = ... if pop_chile else 0` in the static
build and `percap_total = ... if total_population else 0` in the dashboard
both yield 0 on a zero summed population; the per-region per-capita
columns (static line 69, dash line 59) have no such guard and produce a
non-finite value on a zero population. -/
theorem claim_C2 {G : Type} (counts : List StaticRow) (rows : List (GeoDashRow G))
    (yr : Int) (hs : popSumStatic (yearSliceStatic counts yr) = 0)
    (hd : popSumDash rows = 0) :
    per100kChile counts yr = 0 ∧ percapTotalDash rows = 0 := by
  constructor
  · simp [per100kChile, hs]
  · simp [percapTotalDash, hd]

/-- Claim C2 witness: the guards at work on empty tables, whose summed
population is 0. -/
theorem claim_C2_witness :
    per100kChile [] 2000 = 0 ∧ percapTotalDash ([] : List (GeoDashRow Unit)) = 0 :=
  claim_C2 [] [] 2000 rfl rfl

/-- Claim C6: population is attached by a left join on `(region_id, year)`:
when the population table has at most one row per key, every counts row
appears exactly once, in order, with its `n_ventas` unchanged, and a counts
row with no matching population row is kept with a missing population
value (`none`) rather than dropped. -/
theorem claim_C6 (cs : List CountRow) (pop : List PopRow)
    (hpop : (pop.map fun p => (p.region_id, p.year)).Nodup) :
    (leftMergePop cs pop).map (fun m => (m.region_id, m.year, m.n_ventas))
        = cs.map (fun c => (c.region_id, c.year, c.n_ventas))
  ∧ ∀ m ∈ leftMergePop cs pop,
      (∀ p ∈ pop, ¬(p.region_id = m.region_id ∧ p.year = m.year)) → m.population = none := by
  constructor
  · rw [leftMergePop_eq_find cs pop hpop, List.map_map]
    rfl
  · intro m hm hno
    rcases List.mem_flatMap.mp hm with ⟨c, hc, hmem⟩
    by_cases he :
        (pop.filter fun p => decide (p.region_id = c.region_id ∧ p.year = c.year)).isEmpty = true
    · rw [if_pos he] at hmem
      rw [List.mem_singleton] at hmem
      rw [hmem]
    · rw [if_neg he] at hmem
      rcases List.mem_map.mp hmem with ⟨p, hp, rfl⟩
      exfalso
      have hpf := List.mem_filter.mp hp
      have hkey := hpf.2
      simp only [decide_eq_true_eq] at hkey
      exact hno p hpf.1 ⟨hkey.1, hkey.2⟩

/-- Claim C6 witness: a two-row counts table, one key matched by the
population table and one not; the join keeps both rows in order. -/
theorem claim_C6_witness :
    (leftMergePop [⟨"I", 2000, 2⟩, ⟨"II", 2001, 3⟩] popOne).map
        (fun m => (m.region_id, m.year, m.n_ventas))
      = ([⟨"I", 2000, 2⟩, ⟨"II", 2001, 3⟩] : List CountRow).map
        (fun c => (c.region_id, c.year, c.n_ventas)) :=
  (claim_C6 [⟨"I", 2000, 2⟩, ⟨"II", 2001, 3⟩] popOne (by decide)).1

/-- Claim C7: for every year shown, the summary text contains an Australia
segment if and only if the Australia dataset has a row for that year; with
no such row the segment is empty and the text is exactly the Chile totals,
in both delivery modes. -/
theorem claim_C7 {G : Type} (counts : List StaticRow) (df_year : List (GeoDashRow G))
    (aus : List AusRow) (yr : Int) :
    yearTextStatic counts aus yr = chileTextStatic counts yr ++ txtAusStatic aus yr
  ∧ ((∃ a ∈ aus, a.year = yr) ↔ txtAusStatic aus yr ≠ "")
  ∧ ((¬ ∃ a ∈ aus, a.year = yr) → yearTextStatic counts aus yr = chileTextStatic counts yr)
  ∧ totalTextDash df_year aus yr = chileTotalTextDash df_year yr ++ australiaTextDash aus yr
  ∧ ((∃ a ∈ aus, a.year = yr) ↔ australiaTextDash aus yr ≠ "")
  ∧ ((¬ ∃ a ∈ aus, a.year = yr) →
      totalTextDash df_year aus yr = chileTotalTextDash df_year yr) := by
  have hnone : ¬(∃ a ∈ aus, a.year = yr) →
      aus.find? (fun a => decide (a.year = yr)) = none := by
    intro h
    cases hf : aus.find? (fun a => decide (a.year = yr)) with
    | none => rfl
    | some a0 =>
      exfalso
      apply h
      refine ⟨a0, List.mem_of_find?_eq_some hf, ?_⟩
      have hp := List.find?_some hf
      simpa using hp
  have hsome : (∃ a ∈ aus, a.year = yr) →
      ∃ a0, aus.find? (fun a => decide (a.year = yr)) = some a0 := fun h =>
    Option.isSome_iff_exists.mp ((aus_find_isSome aus yr).mpr h)
  refine ⟨rfl, ?_, ?_, rfl, ?_, ?_⟩
  · constructor
    · intro hex
      rcases hsome hex with ⟨a0, hf⟩
      exact txtAusStatic_ne_empty hf
    · intro hne
      by_contra hnex
      exact hne (by rw [txtAusStatic, hnone hnex])
  · intro hnex
    rw [yearTextStatic, txtAusStatic, hnone hnex]
    exact String.append_empty _
  · constructor
    · intro hex
      rcases hsome hex with ⟨a0, hf⟩
      exact australiaTextDash_ne_empty hf
    · intro hne
      by_contra hnex
      exact hne (by rw [australiaTextDash, hnone hnex])
  · intro hnex
    rw [totalTextDash, australiaTextDash, hnone hnex, chileTotalTextDash]
    exact String.append_empty _

/-- Claim C7 witness: with the concrete Australia table `ausOne`, the year
2000 has a segment and the year 2001 does not. -/
theorem claim_C7_witness :
    txtAusStatic ausOne 2000 ≠ ""
  ∧ yearTextStatic [] ausOne 2001 = chileTextStatic [] 2001 :=
  ⟨(claim_C7 [] ([] : List (GeoDashRow Unit)) ausOne 2000).2.1.mp
      ⟨⟨2000, 5, 100, 1/20⟩, by simp [ausOne], rfl⟩,
   (claim_C7 [] ([] : List (GeoDashRow Unit)) ausOne 2001).2.2.1 (by decide)⟩

/-- Claim C3 counterexample: region II is known to the geometry data and
year 2000 is observed in the transaction data, yet the static export's
rendering table (`counts`, handed directly to `px.choropleth` with no
reindex) has no row for (II, 2000); only the dashboard's `df_map` has the
zero-filled row.  So the fill-missing-with-zero property does not hold in
both delivery modes. -/
theorem claim_C3_cex :
    ("II" ∈ regionIdsGrid)
  ∧ ((2000 : Int) ∈ (filterValid valid_types_static dfGrid).map fun t => t.year)
  ∧ (staticCounts dfGrid popGrid).countP
      (fun row => decide (row.region_id = "II" ∧ row.year = 2000)) = 0
  ∧ (dfMap (dashCounts dfGrid popGrid) regionIdsGrid).countP
      (fun row => decide (row.region_id = "II" ∧ row.year = 2000)) = 1 := by
  refine ⟨by decide, by decide, ?_, ?_⟩ <;>
    norm_num +decide [staticCounts, dashCounts, addPer100k, addPerCapita, leftMergePop,
      groupCounts, filterValid, valid_types_static, valid_types_dash, transKey, pdDiv,
      dfGrid, popGrid, regionIdsGrid, dfMap, yearsOf, List.filter_cons, List.countP_cons,
      List.mergeSort]

/-- Claim C3 (amended): the completed region-by-year grid with
fill-missing-with-zero holds in the live dashboard only: for every region
known to the geometry data and every year observed in the transaction
data, `df_map` has a row for that pair, and when the filtered transactions
have no record for the pair its `n_ventas` is 0.  The static export
renders `counts` directly, which only has rows for pairs occurring in the
filtered data. -/
theorem claim_C3 (df : List TransRow) (pop : List PopRow) (region_ids : List String)
    (r : String) (y : Int) (hr : r ∈ region_ids) (hy : y ∈ yearsOf (dashCounts df pop)) :
    (∃ row ∈ dfMap (dashCounts df pop) region_ids, row.region_id = r ∧ row.year = y)
  ∧ ((∀ t ∈ filterValid valid_types_dash df, ¬(t.region_id = r ∧ t.year = y)) →
      ∀ row ∈ dfMap (dashCounts df pop) region_ids,
        row.region_id = r → row.year = y → row.n_ventas = 0) := by
  constructor
  · have hmem := @dfMap_mem_of_grid (dashCounts df pop) region_ids r y hr hy
    cases hfind : (dashCounts df pop).find? (fun c => decide (c.region_id = r ∧ c.year = y)) with
    | some c =>
      rw [hfind] at hmem
      have hp := List.find?_some hfind
      simp only [decide_eq_true_eq] at hp
      exact ⟨c, hmem, hp.1, hp.2⟩
    | none =>
      rw [hfind] at hmem
      exact ⟨⟨r, y, 0, some 0, some 0⟩, hmem, rfl, rfl⟩
  · intro hno row hrow hr2 hy2
    rcases dfMap_mem hrow with ⟨r', -, y', -, hcase⟩
    rcases hcase with ⟨hfind, -, -⟩ | ⟨-, hfill⟩
    · exfalso
      have hrowmem := List.mem_of_find?_eq_some hfind
      rcases dashCounts_key hrowmem with ⟨t, ht, e1, e2⟩
      exact hno t ht ⟨e1.trans hr2, e2.trans hy2⟩
    · rw [hfill]

/-- Claim C3 witness: region II has no transactions at all, and its
dashboard grid row for the observed year 2000 carries `n_ventas = 0`. -/
theorem claim_C3_witness :
    (⟨"II", 2000, 0, some 0, some 0⟩ : DashRow).n_ventas = 0 :=
  (claim_C3 dfGrid popGrid regionIdsGrid "II" 2000 (by decide)
      (by norm_num +decide [dashCounts, addPerCapita, leftMergePop, groupCounts, filterValid,
        valid_types_dash, transKey, pdDiv, dfGrid, popGrid, yearsOf,
        List.filter_cons, List.countP_cons, List.mergeSort])).2
    (by decide)
    ⟨"II", 2000, 0, some 0, some 0⟩
    (by norm_num +decide [dfMap, dashCounts, addPerCapita, leftMergePop, groupCounts,
      filterValid, valid_types_dash, transKey, pdDiv, dfGrid, popGrid, regionIdsGrid,
      yearsOf, List.filter_cons, List.countP_cons, List.mergeSort])
    rfl rfl

set_option linter.unusedVariables false in
/-- Claim C9: in the dashboard, the reindex fills every column of a missing
(region, year) pair with 0 — including `population` and
`ventas_per_capita` — even when the population dataset has a value for
that region and year; such rows therefore contribute 0 to the summed
population of that year's slice. -/
theorem claim_C9 (df : List TransRow) (pop : List PopRow) (region_ids : List String)
    (r : String) (y : Int) (P : ℚ)
    (hno : ∀ t ∈ filterValid valid_types_dash df, ¬(t.region_id = r ∧ t.year = y))
    (hpopval : (⟨r, y, P⟩ : PopRow) ∈ pop) :
    (∀ row ∈ dfMap (dashCounts df pop) region_ids, row.region_id = r → row.year = y →
      row.n_ventas = 0 ∧ row.population = some 0 ∧ row.ventas_per_capita = some 0)
  ∧ (((dfMap (dashCounts df pop) region_ids).filter
        (fun q => decide (q.year = y ∧ q.region_id = r))).map
      (fun q => q.population.getD 0)).sum = 0 := by
  have hrow : ∀ row ∈ dfMap (dashCounts df pop) region_ids,
      row.region_id = r → row.year = y →
      row.n_ventas = 0 ∧ row.population = some 0 ∧ row.ventas_per_capita = some 0 := by
    intro row hrowmem hr2 hy2
    rcases dfMap_mem hrowmem with ⟨r', -, y', -, hcase⟩
    rcases hcase with ⟨hfind, -, -⟩ | ⟨-, hfill⟩
    · exfalso
      have hmem := List.mem_of_find?_eq_some hfind
      rcases dashCounts_key hmem with ⟨t, ht, e1, e2⟩
      exact hno t ht ⟨e1.trans hr2, e2.trans hy2⟩
    · rw [hfill]
      exact ⟨rfl, rfl, rfl⟩
  refine ⟨hrow, ?_⟩
  apply List.sum_eq_zero
  intro x hx
  rcases List.mem_map.mp hx with ⟨q, hq, rfl⟩
  have hqf := List.mem_filter.mp hq
  have hkey := hqf.2
  simp only [decide_eq_true_eq] at hkey
  rcases hrow q hqf.1 hkey.2 hkey.1 with ⟨-, hp0, -⟩
  rw [hp0]
  rfl

/-- Claim C9 witness: region II has a recorded population of 100 for 2000
but no transactions, so its grid row holds population 0 (and per-capita
0), contributing 0 to the year's summed population. -/
theorem claim_C9_witness :
    (⟨"II", 2000, 0, some 0, some 0⟩ : DashRow).n_ventas = 0
  ∧ (⟨"II", 2000, 0, some 0, some 0⟩ : DashRow).population = some 0
  ∧ (⟨"II", 2000, 0, some 0, some 0⟩ : DashRow).ventas_per_capita = some 0 :=
  (claim_C9 dfGrid popGrid regionIdsGrid "II" 2000 100 (by decide)
      (by simp [popGrid])).1
    ⟨"II", 2000, 0, some 0, some 0⟩
    (by norm_num +decide [dfMap, dashCounts, addPerCapita, leftMergePop, groupCounts,
      filterValid, valid_types_dash, transKey, pdDiv, dfGrid, popGrid, regionIdsGrid,
      yearsOf, List.filter_cons, List.countP_cons, List.mergeSort])
    rfl rfl
